import Mathlib

/-!
Verification of the generic type-to-collection REST backend
(`src/models.js` schemas and exports, plus the Express server in
`src/models.js` (embedded server document with the activity routes) and
`src/unnamed/part_000` (generic CRUD, upload/download routes)).

The shallow embedding below models:
* JSON-ish documents as association lists of field name to value
  (`Obj`); field order in the list is not observable through the
  `getField` accessor and carries no meaning;
* the Mongoose collections as Lean lists, one per model of
  `models.js`'s `module.exports`;
* Mongo's sort by date descending as `List.insertionSort` by the
  `date` field;
* Mongoose `Model.create` as projection onto the schema's fields,
  the schema's server-clock default for `date`, and the required-field
  validation; `findOneAndUpdate` with `$set` as a shallow merge of the
  schema-projected patch into the first record matching the external
  `id`; `deleteOne` as removal of the first match;
* the S3 blob store as the list of stored object keys, its
  `deleteObject` call as an `Except String Unit` outcome supplied by
  the environment, and `getSignedUrl` by the key/TTL pair put in the
  redirect response;
* each Express route handler as a function from server state (and the
  request's data, plus the freshly drawn id and the current clock) to
  the new state and the HTTP response.
-/

/-- A JSON-ish field value: the server only ever stores strings and
numbers (dates are modelled as integer timestamps). -/
inductive Value where
  | str (s : String)
  | num (n : Int)
deriving DecidableEq, Repr

/-- JavaScript truthiness of a stored value: the empty string and the
number 0 are falsy, everything else truthy. -/
def Value.truthy : Value → Bool
  | .str s => s ≠ ""
  | .num n => n ≠ 0

/-- A document: an association list of field name to value. -/
abbrev Obj := List (String × Value)

/-- Field lookup, first binding wins. -/
def getField (o : Obj) (k : String) : Option Value :=
  (o.find? (fun p => p.1 == k)).map (fun p => p.2)

/-- Drop every binding of field `k`. -/
def removeField (o : Obj) (k : String) : Obj :=
  o.filter (fun p => p.1 != k)

/-- Set field `k` to `v` (JavaScript property write / spread override).
Field order in the association list is not observable. -/
def setField (o : Obj) (k : String) (v : Value) : Obj :=
  (k, v) :: removeField o k

/-- Shallow merge: write every field of `patch` into `o`
(Mongo `$set` semantics, later fields overriding). -/
def mergeFields (o patch : Obj) : Obj :=
  patch.foldl (fun acc p => setField acc p.1 p.2) o

/-- Keep only the fields of a schema's field list
(Mongoose strict mode drops unknown fields). -/
def projectFields (fields : List String) (o : Obj) : Obj :=
  o.filter (fun p => fields.contains p.1)

/-- JavaScript `a || b` on an optional field value. -/
def jsOr (v : Option Value) (dflt : Value) : Value :=
  match v with
  | some x => if x.truthy then x else dflt
  | none => dflt

/-- A Mongoose schema, as declared in `models.js`: the recognized
field names and the required ones.  Every schema also carries the
server-clock default for `date`, applied in `mongooseCreate`. -/
structure Schema where
  fields : List String
  required : List String
deriving DecidableEq, Repr

/-- `fileSchema` of `models.js`. -/
def fileSchema : Schema :=
  ⟨["id", "title", "description", "tags", "filename", "originalname",
    "path", "mimetype", "size", "date"], ["id"]⟩

/-- `noteSchema` of `models.js`. -/
def noteSchema : Schema := ⟨["id", "title", "content", "date"], ["id", "title"]⟩

/-- `projectSchema` of `models.js`. -/
def projectSchema : Schema := ⟨["id", "name", "description", "date"], ["id", "name"]⟩

/-- `contactSchema` of `models.js`. -/
def contactSchema : Schema :=
  ⟨["id", "name", "email", "phone", "notes", "date"], ["id", "name"]⟩

/-- `codeSchema` of `models.js`, shared by the five code models. -/
def codeSchema : Schema := ⟨["id", "title", "content", "date"], ["id", "title"]⟩

/-- The document produced by `Model.create(doc)`: unknown fields
dropped (strict mode), then the schema's `date` default applied when
the document carries no `date`. -/
def createdDoc (s : Schema) (now : Int) (doc : Obj) : Obj :=
  let d1 := projectFields s.fields doc
  if (getField d1 "date").isSome then d1 else setField d1 "date" (Value.num now)

/-- Does `Model.create(doc)` pass the schema's required-field
validation? -/
def createOk (s : Schema) (now : Int) (doc : Obj) : Bool :=
  s.required.all (fun k => (getField (createdDoc s now doc) k).isSome)

/-- Mongoose `Model.create`: strict-mode projection, `date` default,
required-field validation; a validation failure rejects (throws). -/
def mongooseCreate (s : Schema) (now : Int) (doc : Obj) : Except String Obj :=
  if createOk s now doc then .ok (createdDoc s now doc) else .error "ValidationError"

/-- The nine collections of `modelMap` (one per model exported by
`models.js`). -/
inductive CollKey where
  | files | notes | projects | contacts
  | pythonCodes | javascriptCodes | htmlCodes | cssCodes | otherCodes
deriving DecidableEq, Repr

/-- A collection: the list of stored documents, in insertion order. -/
abbrev Coll := List Obj

/-- The document database: one collection per model. -/
structure DB where
  files : Coll
  notes : Coll
  projects : Coll
  contacts : Coll
  pythonCodes : Coll
  javascriptCodes : Coll
  htmlCodes : Coll
  cssCodes : Coll
  otherCodes : Coll
deriving DecidableEq, Repr

/-- Look up a collection. -/
def DB.get (d : DB) : CollKey → Coll
  | .files => d.files
  | .notes => d.notes
  | .projects => d.projects
  | .contacts => d.contacts
  | .pythonCodes => d.pythonCodes
  | .javascriptCodes => d.javascriptCodes
  | .htmlCodes => d.htmlCodes
  | .cssCodes => d.cssCodes
  | .otherCodes => d.otherCodes

/-- Replace a collection. -/
def DB.set (d : DB) : CollKey → Coll → DB
  | .files, c => { d with files := c }
  | .notes, c => { d with notes := c }
  | .projects, c => { d with projects := c }
  | .contacts, c => { d with contacts := c }
  | .pythonCodes, c => { d with pythonCodes := c }
  | .javascriptCodes, c => { d with javascriptCodes := c }
  | .htmlCodes, c => { d with htmlCodes := c }
  | .cssCodes, c => { d with cssCodes := c }
  | .otherCodes, c => { d with otherCodes := c }

/-- The empty database. -/
def DB.empty : DB := ⟨[], [], [], [], [], [], [], [], []⟩

/-- The schema backing each collection (from `models.js`). -/
def schemaOf : CollKey → Schema
  | .files => fileSchema
  | .notes => noteSchema
  | .projects => projectSchema
  | .contacts => contactSchema
  | _ => codeSchema

/-- The `modelMap` object literal of the server: key string to model. -/
def modelMap : String → Option CollKey
  | "files" => some .files
  | "notes" => some .notes
  | "projects" => some .projects
  | "contacts" => some .contacts
  | "pythonCodes" => some .pythonCodes
  | "javascriptCodes" => some .javascriptCodes
  | "htmlCodes" => some .htmlCodes
  | "cssCodes" => some .cssCodes
  | "otherCodes" => some .otherCodes
  | _ => none

/-- The `getModel` helper: a code-subtype token is redirected to the
`modelMap` entry for the token with `Codes` appended, anything else is
looked up directly. -/
def getModel (t : String) : Option CollKey :=
  if ["python", "javascript", "html", "css", "other"].contains t then
    modelMap (t ++ "Codes")
  else
    modelMap t

/-- The names exported by `models.js`'s `module.exports`. -/
def modelsExports : List String :=
  ["File", "Note", "Project", "Contact",
   "PythonCode", "JavascriptCode", "HtmlCode", "CssCode", "OtherCode"]

/-- The `Activity` binding destructured by the server from
`require('./models')`: defined exactly when `models.js` exports it. -/
def activityModelLoaded : Bool := modelsExports.contains "Activity"

/-- The whole server state: database, the set of keys live in the S3
bucket, whether S3 credentials were present at startup, and the
activity-log collection. -/
structure ServerState where
  db : DB
  blobs : List String
  s3 : Bool
  activities : Coll
deriving DecidableEq, Repr

/-- An HTTP response, as produced by the route handlers. -/
inductive Response where
  | okList (items : List Obj)
  | okObj (item : Obj)
  | okNull
  | created (item : Obj)
  | noContent
  | notFound (msg : String)
  | serverError (msg : String)
  | redirect (key : String) (expires : Nat)
deriving DecidableEq, Repr

/-- The HTTP status code of a response (`okNull` is Express's
`res.json(null)`, a 200; errors reach the client through the global
error handler as 500). -/
def Response.status : Response → Nat
  | .okList _ => 200
  | .okObj _ => 200
  | .okNull => 200
  | .created _ => 201
  | .noContent => 204
  | .notFound _ => 404
  | .serverError _ => 500
  | .redirect _ _ => 302

/-- The `date` field of a document, as the integer key Mongo sorts on
(absent or non-numeric dates sort as 0). -/
def dateOf (o : Obj) : Int :=
  match getField o "date" with
  | some (.num n) => n
  | _ => 0

/-- The ordering the date-descending sort arranges documents by:
newest first. -/
def byDateDesc (a b : Obj) : Prop := dateOf b ≤ dateOf a

instance : DecidableRel byDateDesc := fun a b => Int.decLe (dateOf b) (dateOf a)

instance : IsTotal Obj byDateDesc := ⟨fun a b => Int.le_total (dateOf b) (dateOf a)⟩

instance : IsTrans Obj byDateDesc :=
  ⟨fun _ _ _ hab hbc => Int.le_trans hbc hab⟩

/-- `Model.find()` with the date-descending sort: all documents,
newest first. -/
def findSortedByDateDesc (c : Coll) : Coll := List.insertionSort byDateDesc c

/-- The match predicate of `findOne` on the external `id` field. -/
def idIs (i : String) (o : Obj) : Bool :=
  decide (getField o "id" = some (Value.str i))

/-- `deleteOne` by external id: remove the first matching document. -/
def deleteFirst (p : Obj → Bool) : Coll → Coll
  | [] => []
  | o :: os => if p o then os else o :: deleteFirst p os

/-- `findOneAndUpdate`: rewrite the first matching document. -/
def updateFirst (p : Obj → Bool) (f : Obj → Obj) : Coll → Coll
  | [] => []
  | o :: os => if p o then f o :: os else o :: updateFirst p f os

/-- The observable external effects of the delete route, in order. -/
inductive Event where
  | s3Delete (key : String)
  | dbDelete (k : CollKey) (i : String)
deriving DecidableEq, Repr

/-- The S3 object key recorded in a file document's `filename`. -/
def filenameKey (o : Obj) : String :=
  match getField o "filename" with
  | some (.str s) => s
  | _ => ""

/-- `GET /api/:type` and `GET /api/codes/:subtype` (both route forms
resolve `req.params.subtype || req.params.type` to the same token):
404 for an unregistered token, else all documents newest first. -/
def getTypeHandler (st : ServerState) (t : String) : Response :=
  match getModel t with
  | none => .notFound ("Invalid type: " ++ t)
  | some k => .okList (findSortedByDateDesc (st.db.get k))

/-- Generic `POST /api/:type` / `POST /api/codes/:subtype`: the spread
of the body with the resolved id (`newItemDoc`) is handed to
`Model.create`; `genId` is the value `generateId()` would draw and
`now` the server clock. -/
def newItemDoc (body : Obj) (genId : String) : Obj :=
  setField body "id" (jsOr (getField body "id") (Value.str genId))

def postTypeHandler (st : ServerState) (t : String) (body : Obj)
    (genId : String) (now : Int) : ServerState × Response :=
  match getModel t with
  | none => (st, .notFound ("Invalid type: " ++ t))
  | some k =>
    match mongooseCreate (schemaOf k) now (newItemDoc body genId) with
    | .error e => (st, .serverError e)
    | .ok doc =>
      ({ st with db := st.db.set k (st.db.get k ++ [doc]) }, .created doc)

/-- `GET /api/files/download/:id`: configuration check, then lookup by
external id, then a redirect to `getSignedUrl('getObject', ...)` on the record's `filename` key with
`Expires: 60`, modelled by its key and TTL. -/
def downloadHandler (st : ServerState) (i : String) : Response :=
  if !st.s3 then .serverError "AWS S3 not configured"
  else
    match (st.db.get .files).find? (idIs i) with
    | none => .notFound "File not found"
    | some f => .redirect (filenameKey f) 60

/-- `DELETE /api/:type/:id` / `DELETE /api/codes/:subtype/:id`.
`s3Delete` is the outcome the awaited `s3.deleteObject(...).promise()`
would have (only consulted when the route reaches that call); a
rejection propagates to the catch, so `deleteOne` never runs.  The
middle component lists the external effects in the order performed. -/
def deleteItemHandler (st : ServerState) (t i : String)
    (s3Delete : Except String Unit) : ServerState × List Event × Response :=
  match getModel t with
  | none => (st, [], .notFound "Invalid type")
  | some k =>
    match (st.db.get k).find? (idIs i) with
    | none => (st, [], .notFound "Not found")
    | some item =>
      if t == "files" && st.s3 then
        match s3Delete with
        | .error e => (st, [.s3Delete (filenameKey item)], .serverError e)
        | .ok _ =>
          ({ st with
              db := st.db.set k (deleteFirst (idIs i) (st.db.get k)),
              blobs := st.blobs.erase (filenameKey item) },
           [.s3Delete (filenameKey item), .dbDelete k i], .noContent)
      else
        ({ st with db := st.db.set k (deleteFirst (idIs i) (st.db.get k)) },
         [.dbDelete k i], .noContent)

/-- `PUT /api/:type/:id` / `PUT /api/codes/:subtype/:id`:
`findOneAndUpdate` by external id with the body as a shallow merge,
then `res.json(updated)` with no null check — a missing id yields a
200 with a null body. -/
def putItemHandler (st : ServerState) (t i : String) (body : Obj) :
    ServerState × Response :=
  match getModel t with
  | none => (st, .notFound "Invalid type")
  | some k =>
    match (st.db.get k).find? (idIs i) with
    | none => (st, .okNull)
    | some item =>
      let patch := projectFields (schemaOf k).fields body
      ({ st with
          db := st.db.set k (updateFirst (idIs i) (fun o => mergeFields o patch) (st.db.get k)) },
       .okObj (mergeFields item patch))

/-- `GET /api/activity` (embedded server document in `models.js`):
the `if (!Activity) throw` guard, then the last 20 entries newest
first. -/
def activityGetHandler (st : ServerState) : Response :=
  if !activityModelLoaded then
    .serverError "Activity Model is not defined. Check models.js exports."
  else
    .okList ((findSortedByDateDesc st.activities).take 20)

/-- `POST /api/activity`: the same guard, then an append with a fresh
id and the server clock. -/
def activityPostHandler (st : ServerState) (action itemType itemName : String)
    (genId : String) (now : Int) : ServerState × Response :=
  if !activityModelLoaded then
    (st, .serverError "Activity Model is not defined. Check models.js exports.")
  else
    let a : Obj := [("id", .str genId), ("action", .str action),
                    ("itemType", .str itemType), ("itemName", .str itemName),
                    ("date", .num now)]
    ({ st with activities := st.activities ++ [a] }, .created a)

/-- The multipart file part of an upload request. -/
structure FilePart where
  originalname : String
  mimetype : String
  size : Int
deriving DecidableEq, Repr

/-- What the upload middleware leaves in `req.file`. -/
structure UploadedFile where
  originalname : String
  key : String
  location : String
  mimetype : String
  size : Int
deriving DecidableEq, Repr

/-- The multer-s3 object key: `'uploads/' + Date.now() + '-' +
file.originalname`. -/
def s3Key (now : Int) (name : String) : String :=
  "uploads/" ++ toString now ++ "-" ++ name

/-- The object's resolved location URL, as a function of its key. -/
def s3Location (key : String) : String := "s3://" ++ key

/-- The `upload.single('file')` middleware.  With S3 configured it
streams the file part to the bucket (subject to the 50 MiB limit) and
fills `req.file`; the credentials-missing fallback writes to local
scratch instead, leaving no `key`/`location` and touching no blob. -/
def uploadMiddlewareRun (st : ServerState) (fp : Option FilePart) (now : Int) :
    Except String (ServerState × Option UploadedFile) :=
  if st.s3 then
    match fp with
    | none => .ok (st, none)
    | some f =>
      if f.size > 50 * 1024 * 1024 then .error "File too large"
      else
        let key := s3Key now f.originalname
        .ok ({ st with blobs := st.blobs ++ [key] },
             some ⟨f.originalname, key, s3Location key, f.mimetype, f.size⟩)
  else
    .ok (st, fp.map (fun f => ⟨f.originalname, "", "", f.mimetype, f.size⟩))

/-- The `POST /api/files/upload` route handler proper: configuration
check, file-part check, then `File.create` on the metadata entry. -/
def uploadRouteHandler (st : ServerState) (mfile : Option UploadedFile)
    (body : Obj) (genId : String) (now : Int) : ServerState × Response :=
  if !st.s3 then (st, .serverError "AWS S3 not configured. Check environment variables.")
  else
    match mfile with
    | none => (st, .serverError "No file uploaded.")
    | some f =>
      let fileEntry : Obj :=
        [("id", Value.str genId),
         ("title", jsOr (getField body "title") (Value.str f.originalname)),
         ("description", jsOr (getField body "description") (Value.str "")),
         ("path", Value.str f.location),
         ("filename", Value.str f.key),
         ("originalname", Value.str f.originalname),
         ("mimetype", Value.str f.mimetype),
         ("size", Value.num f.size),
         ("date", Value.num now)]
      match mongooseCreate fileSchema now fileEntry with
      | .error e => (st, .serverError e)
      | .ok doc =>
        ({ st with db := st.db.set .files (st.db.get .files ++ [doc]) },
         .created doc)

/-- A whole `POST /api/files/upload` request: middleware (an error
there goes straight to the global handler), then the route handler. -/
def uploadRequest (st : ServerState) (fp : Option FilePart) (body : Obj)
    (genId : String) (now : Int) : ServerState × Response :=
  match uploadMiddlewareRun st fp now with
  | .error e => (st, .serverError e)
  | .ok (st1, mfile) => uploadRouteHandler st1 mfile body genId now

/-- Sample state: empty database, S3 configured. -/
def stEmptyS3 : ServerState := ⟨DB.empty, [], true, []⟩

/-- Sample state: empty database, S3 credentials absent. -/
def stNoS3 : ServerState := ⟨DB.empty, [], false, []⟩

/-- Sample file record backed by the object key `k1`. -/
def fileObj1 : Obj :=
  [("id", Value.str "f1"), ("filename", Value.str "k1"), ("date", Value.num 3)]

/-- Sample state: one file record, its object live, S3 configured. -/
def stFiles : ServerState := ⟨{ DB.empty with files := [fileObj1] }, ["k1"], true, []⟩

/-- Sample state: one file record and its object, S3 credentials
absent. -/
def stFilesNoS3 : ServerState := ⟨{ DB.empty with files := [fileObj1] }, ["k1"], false, []⟩

/-- Sample note with date 1. -/
def noteA : Obj := [("id", Value.str "a"), ("title", Value.str "t"), ("date", Value.num 1)]

/-- Sample note with date 9. -/
def noteB : Obj := [("id", Value.str "b"), ("title", Value.str "u"), ("date", Value.num 9)]

/-- Sample state: one note. -/
def stNotes : ServerState := ⟨{ DB.empty with notes := [noteA] }, [], true, []⟩

/-- Sample state: two notes inserted oldest first. -/
def stTwoNotes : ServerState := ⟨{ DB.empty with notes := [noteA, noteB] }, [], true, []⟩

/-- A request body for the files type carrying a `filename` that no
stored object backs. -/
def ghostBody : Obj :=
  [("title", Value.str "gf"), ("filename", Value.str "ghost.bin"),
   ("path", Value.str "nowhere")]

/-- The file record the generic POST stores for `ghostBody`. -/
def ghostDoc : Obj := createdDoc fileSchema 7 (newItemDoc ghostBody "g1")

/-- Substring check (does `hay` contain `needle`?), used to state
whether an error message names a type token. -/
def strContains (hay needle : String) : Bool :=
  hay.data.tails.any (fun t => needle.data.isPrefixOf t)

theorem DB.get_set_self (d : DB) (k : CollKey) (c : Coll) : (d.set k c).get k = c := by
  cases k <;> rfl

theorem find?_filter_of_imp {α : Type} (p q : α → Bool) (l : List α)
    (h : ∀ x, p x = true → q x = true) :
    (l.filter q).find? p = l.find? p := by
  induction l with
  | nil => rfl
  | cons a l ih =>
    by_cases hq : q a = true
    · rw [List.filter_cons_of_pos hq]
      by_cases hp : p a = true
      · rw [List.find?_cons_of_pos _ hp, List.find?_cons_of_pos _ hp]
      · rw [List.find?_cons_of_neg _ hp, List.find?_cons_of_neg _ hp, ih]
    · have hp : ¬ p a = true := fun hpa => hq (h a hpa)
      rw [List.filter_cons_of_neg hq, List.find?_cons_of_neg _ hp, ih]

theorem getField_setField_self (o : Obj) (k : String) (v : Value) :
    getField (setField o k v) k = some v := by
  simp [getField, setField]

theorem getField_setField_ne (o : Obj) (k kq : String) (v : Value) (h : kq ≠ k) :
    getField (setField o k v) kq = getField o kq := by
  unfold getField setField removeField
  rw [List.find?_cons_of_neg _ (by simpa using Ne.symm h)]
  rw [find?_filter_of_imp]
  intro x hx
  have hx1 : x.1 = kq := by simpa using hx
  simpa [hx1] using h

theorem getField_projectFields (fs : List String) (o : Obj) (k : String)
    (h : fs.contains k = true) :
    getField (projectFields fs o) k = getField o k := by
  unfold getField projectFields
  rw [find?_filter_of_imp]
  intro x hx
  have hx1 : x.1 = k := by simpa using hx
  rw [hx1]; exact h

theorem getField_createdDoc_ne_date (s : Schema) (now : Int) (d : Obj) (k : String)
    (hk : s.fields.contains k = true) (hne : k ≠ "date") :
    getField (createdDoc s now d) k = getField d k := by
  simp only [createdDoc]
  by_cases hd : (getField (projectFields s.fields d) "date").isSome
  · rw [if_pos hd]; exact getField_projectFields _ _ _ hk
  · rw [if_neg hd, getField_setField_ne _ _ _ _ hne]
    exact getField_projectFields _ _ _ hk

theorem getField_createdDoc_date_none (s : Schema) (now : Int) (d : Obj)
    (hs : s.fields.contains "date" = true) (h : getField d "date" = none) :
    getField (createdDoc s now d) "date" = some (Value.num now) := by
  have h1 : getField (projectFields s.fields d) "date" = none :=
    (getField_projectFields _ _ _ hs).trans h
  simp only [createdDoc]
  rw [h1]
  simp [getField_setField_self]

theorem getField_createdDoc_date_some (s : Schema) (now : Int) (d : Obj) (dv : Value)
    (hs : s.fields.contains "date" = true) (h : getField d "date" = some dv) :
    getField (createdDoc s now d) "date" = some dv := by
  have h1 : getField (projectFields s.fields d) "date" = some dv :=
    (getField_projectFields _ _ _ hs).trans h
  simp only [createdDoc]
  rw [h1]
  simpa using h1

theorem schemaOf_fields_id (k : CollKey) : (schemaOf k).fields.contains "id" = true := by
  cases k <;> decide

theorem schemaOf_fields_date (k : CollKey) : (schemaOf k).fields.contains "date" = true := by
  cases k <;> decide

theorem find?_deleteFirst_of_pairwise (c : Coll) (i : String)
    (hu : c.Pairwise (fun a b => getField a "id" ≠ getField b "id")) :
    (deleteFirst (idIs i) c).find? (idIs i) = none := by
  induction c with
  | nil => rfl
  | cons o os ih =>
    rw [List.pairwise_cons] at hu
    obtain ⟨hrel, hu2⟩ := hu
    by_cases h : idIs i o = true
    · rw [deleteFirst, if_pos h, List.find?_eq_none]
      intro x hx hpx
      have hxo : getField x "id" = some (Value.str i) := of_decide_eq_true hpx
      have hoo : getField o "id" = some (Value.str i) := of_decide_eq_true h
      exact hrel x hx (hoo.trans hxo.symm)
    · rw [deleteFirst, if_neg h, List.find?_cons_of_neg _ h]
      exact ih hu2

/-- C1: the spec and the routes' own guard intend `GET /api/activity`
to return the 20 most recent entries newest first, but `models.js`
exports no `Activity` model, so the destructured `Activity` binding is
undefined and every `GET /api/activity` — and every `POST
/api/activity` that would insert an entry — answers 500 with the
guard's message, for every state of the activity log. -/
theorem activityRoutes_modelMissing (st : ServerState)
    (action itemType itemName genId : String) (now : Int) :
    activityGetHandler st
      = Response.serverError "Activity Model is not defined. Check models.js exports." ∧
    activityPostHandler st action itemType itemName genId now
      = (st, Response.serverError "Activity Model is not defined. Check models.js exports.") ∧
    activityModelLoaded = false :=
  ⟨rfl, rfl, rfl⟩

/-- C6 counterexample: for the unregistered token `widgets`, the
DELETE and PUT handlers answer 404 with the fixed message
`Invalid type`, which does not contain the offending token (shown via
the `strContains` substring check defined below the handlers). -/
theorem deleteUnknownType_message_cex :
    (deleteItemHandler stEmptyS3 "widgets" "x" (Except.ok ())).2.2
      = Response.notFound "Invalid type" ∧
    (putItemHandler stEmptyS3 "widgets" "x" []).2 = Response.notFound "Invalid type" ∧
    strContains "Invalid type" "widgets" = false := by
  refine ⟨rfl, rfl, rfl⟩

/-- C6 (amended): an unregistered type token never throws: all four
generic operations answer 404 with a JSON error body; GET and POST
name the offending token in the message, while DELETE and PUT use the
fixed message `Invalid type`. -/
theorem unknownType_404_amended (st : ServerState) (t i : String) (body : Obj)
    (s3r : Except String Unit) (genId : String) (now : Int)
    (h : getModel t = none) :
    getTypeHandler st t = Response.notFound ("Invalid type: " ++ t) ∧
    postTypeHandler st t body genId now = (st, Response.notFound ("Invalid type: " ++ t)) ∧
    deleteItemHandler st t i s3r = (st, [], Response.notFound "Invalid type") ∧
    putItemHandler st t i body = (st, Response.notFound "Invalid type") := by
  refine ⟨?_, ?_, ?_, ?_⟩ <;>
    simp [getTypeHandler, postTypeHandler, deleteItemHandler, putItemHandler, h]

/-- C6 witness: the amended statement at the concrete unregistered
token `widgets`. -/
theorem unknownType_404_amended_witness :
    getTypeHandler stEmptyS3 "widgets" = Response.notFound ("Invalid type: " ++ "widgets") ∧
    postTypeHandler stEmptyS3 "widgets" [] "g" 1
      = (stEmptyS3, Response.notFound ("Invalid type: " ++ "widgets")) ∧
    deleteItemHandler stEmptyS3 "widgets" "x" (Except.ok ())
      = (stEmptyS3, [], Response.notFound "Invalid type") ∧
    putItemHandler stEmptyS3 "widgets" "x" []
      = (stEmptyS3, Response.notFound "Invalid type") :=
  unknownType_404_amended stEmptyS3 "widgets" "x" [] (Except.ok ()) "g" 1 (by decide)

/-- C7: an upload request with no file part, or issued while object
storage is unconfigured, fails with an explicit 500 before any File
metadata record is created: the whole server state, the files
collection included, is unchanged. -/
theorem upload_no_orphan_metadata (st : ServerState) (fp : Option FilePart)
    (body : Obj) (genId : String) (now : Int)
    (h : fp = none ∨ st.s3 = false) :
    (uploadRequest st fp body genId now).1 = st ∧
    ∃ m, (uploadRequest st fp body genId now).2 = Response.serverError m := by
  rcases h with h | h
  · subst h
    by_cases h3 : st.s3 <;>
      simp [uploadRequest, uploadMiddlewareRun, uploadRouteHandler, h3]
  · cases fp <;> simp [uploadRequest, uploadMiddlewareRun, uploadRouteHandler, h]

/-- C7 witness: the property at a concrete no-file request and at a
concrete storage-unconfigured request with a file part. -/
theorem upload_no_orphan_metadata_witness :
    ((uploadRequest stEmptyS3 none [] "g" 7).1 = stEmptyS3 ∧
      ∃ m, (uploadRequest stEmptyS3 none [] "g" 7).2 = Response.serverError m) ∧
    ((uploadRequest stNoS3 (some ⟨"a.txt", "text/plain", 10⟩) [] "g" 7).1 = stNoS3 ∧
      ∃ m, (uploadRequest stNoS3 (some ⟨"a.txt", "text/plain", 10⟩) [] "g" 7).2
        = Response.serverError m) :=
  ⟨upload_no_orphan_metadata stEmptyS3 none [] "g" 7 (Or.inl rfl),
   upload_no_orphan_metadata stNoS3 (some ⟨"a.txt", "text/plain", 10⟩) [] "g" 7 (Or.inr rfl)⟩

/-- C8: for every registered type token and every collection state,
the generic GET answers 200 with a permutation of the whole collection
that is sorted by `date` descending, and with the empty list on an
empty collection. -/
theorem listAll_sorted_desc (st : ServerState) (t : String) (k : CollKey)
    (hk : getModel t = some k) :
    getTypeHandler st t = Response.okList (findSortedByDateDesc (st.db.get k)) ∧
    (findSortedByDateDesc (st.db.get k)).Perm (st.db.get k) ∧
    (findSortedByDateDesc (st.db.get k)).Sorted byDateDesc ∧
    (st.db.get k = [] → getTypeHandler st t = Response.okList []) := by
  refine ⟨?_, ?_, ?_, ?_⟩
  · simp [getTypeHandler, hk]
  · exact List.perm_insertionSort byDateDesc (st.db.get k)
  · exact List.sorted_insertionSort byDateDesc (st.db.get k)
  · intro h; simp [getTypeHandler, hk, h, findSortedByDateDesc]

/-- C8 witness: at two notes inserted oldest first, the handler
answers the date-descending reordering, concretely newest first. -/
theorem listAll_sorted_desc_witness :
    getTypeHandler stTwoNotes "notes"
      = Response.okList (findSortedByDateDesc (stTwoNotes.db.get CollKey.notes)) ∧
    (findSortedByDateDesc (stTwoNotes.db.get CollKey.notes)).Sorted byDateDesc ∧
    findSortedByDateDesc (stTwoNotes.db.get CollKey.notes) = [noteB, noteA] :=
  ⟨(listAll_sorted_desc stTwoNotes "notes" CollKey.notes (by decide)).1,
   (listAll_sorted_desc stTwoNotes "notes" CollKey.notes (by decide)).2.2.1,
   by decide⟩

/-- C9: with object storage configured, the download route answers 404
(and never a redirect) when no file record carries the requested
external id, and otherwise a redirect to the signed URL for the
record's object key with a 60-second TTL, carrying no object bytes. -/
theorem download_404_or_redirect (st : ServerState) (i : String)
    (h3 : st.s3 = true) :
    ((st.db.get .files).find? (idIs i) = none →
      downloadHandler st i = Response.notFound "File not found") ∧
    (∀ f, (st.db.get .files).find? (idIs i) = some f →
      downloadHandler st i = Response.redirect (filenameKey f) 60) := by
  constructor
  · intro h; simp [downloadHandler, h3, h]
  · intro f h; simp [downloadHandler, h3, h]

/-- C9 witness: at a concrete state holding one file record, a known
id redirects to its key with TTL 60 and an unknown id answers 404. -/
theorem download_404_or_redirect_witness :
    downloadHandler stFiles "f1" = Response.redirect "k1" 60 ∧
    downloadHandler stFiles "zzz" = Response.notFound "File not found" :=
  ⟨(download_404_or_redirect stFiles "f1" rfl).2 fileObj1 (by decide),
   (download_404_or_redirect stFiles "zzz" rfl).1 (by decide)⟩

/-- C2 counterexample: a generic POST to `notes` with a client-supplied
`date` of 5 at server time 100 stores and returns the record with
`date` 5 — the `date` is not set server-side regardless of client
input, so the claim as stated is false. -/
theorem postType_clientDate_preserved_cex :
    (postTypeHandler stEmptyS3 "notes"
        [("title", Value.str "t"), ("date", Value.num 5)] "g" 100).2
      = Response.created [("id", Value.str "g"), ("title", Value.str "t"), ("date", Value.num 5)] ∧
    getField [("id", Value.str "g"), ("title", Value.str "t"), ("date", Value.num 5)] "date"
      = some (Value.num 5) ∧
    Value.num 5 ≠ Value.num 100 := by decide

/-- C2 (amended): on a generic create of a registered type that passes
validation, a missing body `id` gets the generated identifier; the
stored `date` defaults to the operation's server time only when the
body supplies no `date`, and a client-supplied `date` is stored as
given; the response is 201 with the stored record. -/
theorem postType_create_amended (st : ServerState) (t : String) (k : CollKey)
    (body : Obj) (genId : String) (now : Int)
    (hk : getModel t = some k)
    (hv : createOk (schemaOf k) now (newItemDoc body genId) = true) :
    postTypeHandler st t body genId now
      = ({ st with db := st.db.set k (st.db.get k ++ [createdDoc (schemaOf k) now (newItemDoc body genId)]) },
         Response.created (createdDoc (schemaOf k) now (newItemDoc body genId))) ∧
    (getField body "id" = none →
      getField (createdDoc (schemaOf k) now (newItemDoc body genId)) "id"
        = some (Value.str genId)) ∧
    (getField body "date" = none →
      getField (createdDoc (schemaOf k) now (newItemDoc body genId)) "date"
        = some (Value.num now)) ∧
    (∀ d, getField body "date" = some d →
      getField (createdDoc (schemaOf k) now (newItemDoc body genId)) "date" = some d) := by
  refine ⟨?_, ?_, ?_, ?_⟩
  · simp [postTypeHandler, hk, mongooseCreate, hv]
  · intro hid
    rw [getField_createdDoc_ne_date _ _ _ _ (schemaOf_fields_id k) (by decide)]
    simp [newItemDoc, hid, jsOr, getField_setField_self]
  · intro hd
    apply getField_createdDoc_date_none _ _ _ (schemaOf_fields_date k)
    unfold newItemDoc
    rw [getField_setField_ne _ _ _ _ (by decide)]
    exact hd
  · intro d hd
    apply getField_createdDoc_date_some _ _ _ _ (schemaOf_fields_date k)
    unfold newItemDoc
    rw [getField_setField_ne _ _ _ _ (by decide)]
    exact hd

/-- C2 witness: the amended statement at a concrete create of a note
with no body `id` and no body `date`, at server time 9. -/
theorem postType_create_amended_witness :
    postTypeHandler stEmptyS3 "notes" [("title", Value.str "t")] "g" 9
      = ({ stEmptyS3 with db := stEmptyS3.db.set CollKey.notes (stEmptyS3.db.get CollKey.notes ++ [createdDoc (schemaOf CollKey.notes) 9 (newItemDoc [("title", Value.str "t")] "g")]) },
         Response.created (createdDoc (schemaOf CollKey.notes) 9 (newItemDoc [("title", Value.str "t")] "g"))) ∧
    getField (createdDoc (schemaOf CollKey.notes) 9 (newItemDoc [("title", Value.str "t")] "g")) "id"
      = some (Value.str "g") ∧
    getField (createdDoc (schemaOf CollKey.notes) 9 (newItemDoc [("title", Value.str "t")] "g")) "date"
      = some (Value.num 9) :=
  ⟨(postType_create_amended stEmptyS3 "notes" CollKey.notes
      [("title", Value.str "t")] "g" 9 (by decide) (by decide)).1,
   (postType_create_amended stEmptyS3 "notes" CollKey.notes
      [("title", Value.str "t")] "g" 9 (by decide) (by decide)).2.1 rfl,
   (postType_create_amended stEmptyS3 "notes" CollKey.notes
      [("title", Value.str "t")] "g" 9 (by decide) (by decide)).2.2.1 rfl⟩

/-- C10: the generic POST touches no blob-store state for any type
token; applied to the `files` type it stores exactly the record
`Model.create` builds from the body and the resolved id, whatever the
blob store holds — so it can mint a file record whose `filename` no
stored object backs. -/
theorem postFiles_no_blob_op (st : ServerState) (t : String) (body : Obj)
    (genId : String) (now : Int) :
    (postTypeHandler st t body genId now).1.blobs = st.blobs ∧
    (postTypeHandler st t body genId now).1.s3 = st.s3 ∧
    (∀ doc, mongooseCreate fileSchema now (newItemDoc body genId) = Except.ok doc →
      postTypeHandler st "files" body genId now
        = ({ st with db := st.db.set CollKey.files (st.db.get CollKey.files ++ [doc]) },
           Response.created doc)) := by
  have hfr : (postTypeHandler st t body genId now).1.blobs = st.blobs ∧
      (postTypeHandler st t body genId now).1.s3 = st.s3 := by
    cases hm : getModel t with
    | none => simp [postTypeHandler, hm]
    | some k =>
      cases hc : mongooseCreate (schemaOf k) now (newItemDoc body genId) with
      | error e => simp [postTypeHandler, hm, hc]
      | ok doc => simp [postTypeHandler, hm, hc]
  refine ⟨hfr.1, hfr.2, ?_⟩
  intro doc hdoc
  have hm : getModel "files" = some CollKey.files := rfl
  have hs : schemaOf CollKey.files = fileSchema := rfl
  simp [postTypeHandler, hm, hs, hdoc]

/-- C10 witness: at an empty blob store, a generic POST to `files`
whose body carries `filename` `ghost.bin` leaves the blob store empty
yet stores a file record with that `filename`. -/
theorem postFiles_no_blob_op_witness :
    (postTypeHandler stEmptyS3 "files" ghostBody "g1" 7).1.blobs = [] ∧
    postTypeHandler stEmptyS3 "files" ghostBody "g1" 7
      = ({ stEmptyS3 with db := stEmptyS3.db.set CollKey.files (stEmptyS3.db.get CollKey.files ++ [ghostDoc]) },
         Response.created ghostDoc) ∧
    getField ghostDoc "filename" = some (Value.str "ghost.bin") ∧
    stEmptyS3.blobs.contains "ghost.bin" = false :=
  ⟨(postFiles_no_blob_op stEmptyS3 "files" ghostBody "g1" 7).1,
   (postFiles_no_blob_op stEmptyS3 "files" ghostBody "g1" 7).2.2 ghostDoc rfl,
   by decide, by decide⟩

/-- C4 counterexample: with S3 configured and a file record present, a
failing `deleteObject` makes the whole request answer 500 and leaves
the server state — the metadata record included — unchanged: the
object-store failure is escalated and the metadata deletion does not
proceed, so the claim as stated is false. -/
theorem deleteFile_s3Failure_escalates_cex :
    deleteItemHandler stFiles "files" "f1" (Except.error "S3 delete failed")
      = (stFiles, [Event.s3Delete "k1"], Response.serverError "S3 delete failed") ∧
    stFiles.db.files = [fileObj1] ∧
    Response.serverError "S3 delete failed" ≠ Response.noContent := by decide

/-- C4 (amended): deleting an existing file record with object storage
configured deletes the backing object before the metadata record (the
effect trace lists the S3 deletion first); if the object-store
deletion fails, the error is escalated through the error handler — the
request answers 500 and the metadata record is not deleted. -/
theorem deleteFile_order_escalation_amended (st : ServerState) (i : String) (item : Obj)
    (h3 : st.s3 = true)
    (hfind : (st.db.get CollKey.files).find? (idIs i) = some item) :
    deleteItemHandler st "files" i (Except.ok ())
      = ({ st with
            db := st.db.set CollKey.files (deleteFirst (idIs i) (st.db.get CollKey.files)),
            blobs := st.blobs.erase (filenameKey item) },
         [Event.s3Delete (filenameKey item), Event.dbDelete CollKey.files i],
         Response.noContent) ∧
    (∀ e, deleteItemHandler st "files" i (Except.error e)
      = (st, [Event.s3Delete (filenameKey item)], Response.serverError e)) := by
  have hm : getModel "files" = some CollKey.files := rfl
  constructor
  · simp [deleteItemHandler, hm, hfind, h3]
  · intro e; simp [deleteItemHandler, hm, hfind, h3]

/-- C4 witness: the amended statement at a concrete state with one
file record, for a succeeding and for a failing object deletion. -/
theorem deleteFile_order_escalation_amended_witness :
    deleteItemHandler stFiles "files" "f1" (Except.ok ())
      = ({ stFiles with
            db := stFiles.db.set CollKey.files (deleteFirst (idIs "f1") (stFiles.db.get CollKey.files)),
            blobs := stFiles.blobs.erase (filenameKey fileObj1) },
         [Event.s3Delete (filenameKey fileObj1), Event.dbDelete CollKey.files "f1"],
         Response.noContent) ∧
    deleteItemHandler stFiles "files" "f1" (Except.error "boom")
      = (stFiles, [Event.s3Delete (filenameKey fileObj1)], Response.serverError "boom") :=
  ⟨(deleteFile_order_escalation_amended stFiles "f1" fileObj1 rfl (by decide)).1,
   (deleteFile_order_escalation_amended stFiles "f1" fileObj1 rfl (by decide)).2 "boom"⟩

/-- C5 counterexample: with storage credentials absent, deleting an
existing file record answers 204 after silently skipping the object
deletion — the effect trace holds only the metadata deletion and the
blob set is untouched — rather than failing with a configuration
error, so the claim as stated is false. -/
theorem deleteFile_degraded_skips_cex :
    (deleteItemHandler stFilesNoS3 "files" "f1" (Except.ok ())).2.2 = Response.noContent ∧
    (deleteItemHandler stFilesNoS3 "files" "f1" (Except.ok ())).2.1
      = [Event.dbDelete CollKey.files "f1"] ∧
    (deleteItemHandler stFilesNoS3 "files" "f1" (Except.ok ())).1.blobs = ["k1"] ∧
    Response.noContent.status = 204 := by decide

/-- C5 (amended): with storage credentials absent, the download route
does fail explicitly with a configuration error, but the delete route
for the `files` type silently skips the object deletion: it performs
only the metadata deletion and answers 204. -/
theorem degraded_explicit_failures_amended (st : ServerState) (i : String) (item : Obj)
    (h3 : st.s3 = false)
    (hfind : (st.db.get CollKey.files).find? (idIs i) = some item) :
    downloadHandler st i = Response.serverError "AWS S3 not configured" ∧
    (∀ s3r, deleteItemHandler st "files" i s3r
      = ({ st with db := st.db.set CollKey.files (deleteFirst (idIs i) (st.db.get CollKey.files)) },
         [Event.dbDelete CollKey.files i], Response.noContent)) := by
  have hm : getModel "files" = some CollKey.files := rfl
  constructor
  · simp [downloadHandler, h3]
  · intro s3r; simp [deleteItemHandler, hm, hfind, h3]

/-- C5 witness: the amended statement at a concrete degraded-mode
state with one file record. -/
theorem degraded_explicit_failures_amended_witness :
    downloadHandler stFilesNoS3 "f1" = Response.serverError "AWS S3 not configured" ∧
    deleteItemHandler stFilesNoS3 "files" "f1" (Except.ok ())
      = ({ stFilesNoS3 with db := stFilesNoS3.db.set CollKey.files (deleteFirst (idIs "f1") (stFilesNoS3.db.get CollKey.files)) },
         [Event.dbDelete CollKey.files "f1"], Response.noContent) :=
  ⟨(degraded_explicit_failures_amended stFilesNoS3 "f1" fileObj1 rfl (by decide)).1,
   (degraded_explicit_failures_amended stFilesNoS3 "f1" fileObj1 rfl (by decide)).2 (Except.ok ())⟩

theorem deleteItem_noContent_db (st st1 : ServerState) (t i : String) (k : CollKey)
    (s3r : Except String Unit) (ev : List Event)
    (hk : getModel t = some k)
    (hdel : deleteItemHandler st t i s3r = (st1, ev, Response.noContent)) :
    st1.db.get k = deleteFirst (idIs i) (st.db.get k) := by
  simp only [deleteItemHandler, hk] at hdel
  cases hfind : (st.db.get k).find? (idIs i) with
  | none =>
    simp only [hfind] at hdel
    simp at hdel
  | some item =>
    simp only [hfind] at hdel
    by_cases hc : (t == "files" && st.s3) = true
    · rw [if_pos hc] at hdel
      cases s3r with
      | error e => simp at hdel
      | ok u =>
        simp only [Prod.mk.injEq] at hdel
        obtain ⟨h1, -, -⟩ := hdel
        rw [← h1]
        exact DB.get_set_self _ _ _
    · rw [if_neg hc] at hdel
      simp only [Prod.mk.injEq] at hdel
      obtain ⟨h1, -, -⟩ := hdel
      rw [← h1]
      exact DB.get_set_self _ _ _

/-- C3 counterexample: a PUT to a registered type with an id matching
no record answers 200 with a JSON `null` body, not 404, so the claim
as stated is false. -/
theorem putMissing_returns_null_cex :
    (putItemHandler stEmptyS3 "notes" "ghost" []).2 = Response.okNull ∧
    (putItemHandler stEmptyS3 "notes" "ghost" []).2.status = 200 ∧
    (200 : Nat) ≠ 404 := by decide

/-- C3 (amended): for a registered type whose collection carries
pairwise-distinct external ids: a DELETE of an id matching no record
answers 404 with an error body, while a PUT to it answers 200 with a
null body; and after a DELETE answers 204, a subsequent DELETE of the
same id answers 404 and a subsequent PUT answers 200 with a null
body. -/
theorem deletePut_notFound_amended (st st1 : ServerState) (t i : String) (k : CollKey)
    (body : Obj) (s3r s3r2 : Except String Unit) (ev : List Event)
    (hk : getModel t = some k)
    (hu : (st.db.get k).Pairwise (fun a b => getField a "id" ≠ getField b "id")) :
    ((st.db.get k).find? (idIs i) = none →
      deleteItemHandler st t i s3r = (st, [], Response.notFound "Not found") ∧
      putItemHandler st t i body = (st, Response.okNull)) ∧
    (deleteItemHandler st t i s3r = (st1, ev, Response.noContent) →
      (deleteItemHandler st1 t i s3r2).2.2 = Response.notFound "Not found" ∧
      (putItemHandler st1 t i body).2 = Response.okNull) := by
  constructor
  · intro hnone
    constructor
    · simp [deleteItemHandler, hk, hnone]
    · simp [putItemHandler, hk, hnone]
  · intro hdel
    have hdb : st1.db.get k = deleteFirst (idIs i) (st.db.get k) :=
      deleteItem_noContent_db st st1 t i k s3r ev hk hdel
    have hnone : (st1.db.get k).find? (idIs i) = none := by
      rw [hdb]; exact find?_deleteFirst_of_pairwise _ _ hu
    constructor
    · simp [deleteItemHandler, hk, hnone]
    · simp [putItemHandler, hk, hnone]

/-- C3 witness: at a concrete one-note state, the DELETE answers 204,
after which a second DELETE answers 404 and a PUT answers 200 with a
null body. -/
theorem deletePut_notFound_amended_witness :
    deleteItemHandler stNotes "notes" "a" (Except.ok ())
      = (stEmptyS3, [Event.dbDelete CollKey.notes "a"], Response.noContent) ∧
    (deleteItemHandler stEmptyS3 "notes" "a" (Except.ok ())).2.2 = Response.notFound "Not found" ∧
    (putItemHandler stEmptyS3 "notes" "a" []).2 = Response.okNull := by
  refine ⟨by decide, ?_, ?_⟩
  · exact ((deletePut_notFound_amended stNotes stEmptyS3 "notes" "a" CollKey.notes []
      (Except.ok ()) (Except.ok ()) [Event.dbDelete CollKey.notes "a"]
      (by decide) (by decide)).2 (by decide)).1
  · exact ((deletePut_notFound_amended stNotes stEmptyS3 "notes" "a" CollKey.notes []
      (Except.ok ()) (Except.ok ()) [Event.dbDelete CollKey.notes "a"]
      (by decide) (by decide)).2 (by decide)).2
